import Mathlib

/-!
A shallow embedding of the parking management system in
src/parking_system.py, together with theorems checking the stated
properties of its specification.

Conventions of the embedding:
* Python floats for parked hours and fees become rationals.
* Wall-clock timestamps become natural numbers (seconds); methods that
  read the clock take the current time as an extra argument.
* Python dictionaries become association lists; insertion appends at the
  end, deletion removes the first binding of the key (keys are kept
  unique by the operations, as in a dictionary).
* Raised exceptions become values of the error type PErr carried in
  Except; the constructors mirror the exception class hierarchy of the
  source, and PErr.isParkingError tells whether a value belongs to the
  ParkingError subtree (which the except clauses of the source catch).
* A method that catches exceptions internally returns its caught error
  (if any) as an Option component of a normal result instead of an
  Except error, mirroring the try/except blocks of the source.
-/

/-- Errors of the source program: the ParkingError hierarchy of section 1
of parking_system.py, plus the built-in ValueError and a generic
constructor for any other built-in exception. -/
inductive PErr where
  | parkingError (msg : String)
  | duplicatePlateError (msg : String)
  | fullLotError (msg : String)
  | vehicleNotParkedError (msg : String)
  | valueError (msg : String)
  | genericError (msg : String)
deriving Repr, DecidableEq

/-- Whether the error belongs to the ParkingError class hierarchy; the
except ParkingError clauses of the source catch exactly these. -/
def PErr.isParkingError : PErr → Bool
  | .parkingError _ => true
  | .duplicatePlateError _ => true
  | .fullLotError _ => true
  | .vehicleNotParkedError _ => true
  | .valueError _ => false
  | .genericError _ => false

/-- Plate normalization, the embedding of
plate.upper().replace(" ", "") used throughout the source: upper-case
every character and drop the spaces. -/
def normalizePlate (s : String) : String :=
  String.mk ((s.data.map Char.toUpper).filter (fun c => c ≠ ' '))

/-- Lower-casing, the embedding of pass_type.lower(): lower-case every
character. -/
def toLowerStr (s : String) : String :=
  String.mk (s.data.map Char.toLower)

/-- Vehicle of section 2: a validated, normalized plate and a type. -/
structure Vehicle where
  license_plate : String
  vehicle_type : String
deriving Repr, DecidableEq

/-- Embedding of Vehicle.__init__ with Vehicle._validate_plate: an empty
plate is rejected, then the plate is normalized. -/
def Vehicle.make (license_plate : String) (vehicle_type : String) : Except PErr Vehicle :=
  if license_plate = "" then
    .error (.valueError "License plate cannot be empty or invalid.")
  else
    .ok { license_plate := normalizePlate license_plate, vehicle_type := vehicle_type }

/-- Driver of section 2: name, validated id, and an owned Vehicle. -/
structure Driver where
  full_name : String
  driver_id : String
  vehicle : Vehicle
deriving Repr, DecidableEq

/-- Embedding of Driver.__init__ with Driver._validate_id: an empty
driver id is rejected. -/
def Driver.make (full_name : String) (driver_id : String) (vehicle : Vehicle) :
    Except PErr Driver :=
  if driver_id = "" then
    .error (.valueError "Driver ID cannot be empty.")
  else
    .ok { full_name := full_name, driver_id := driver_id, vehicle := vehicle }

/-- The two concrete subclasses of ParkingPass in section 3. -/
inductive PassKind where
  | student
  | staff
deriving Repr, DecidableEq

/-- A parking pass: the dynamic class of the Python object becomes the
kind field. -/
structure ParkingPass where
  pass_id : String
  driver : Driver
  kind : PassKind
deriving Repr, DecidableEq

/-- StudentPass.STUDENT_RATE = 2.0. -/
def StudentPass.STUDENT_RATE : ℚ := 2

/-- StaffPass.STAFF_RATE = 3.0. -/
def StaffPass.STAFF_RATE : ℚ := 3

/-- The Python class name of a pass, used in an error message. -/
def ParkingPass.class_name (p : ParkingPass) : String :=
  match p.kind with
  | .student => "StudentPass"
  | .staff => "StaffPass"

/-- The fee rate fixed by the constructor of each subclass. -/
def ParkingPass.fee_rate (p : ParkingPass) : ℚ :=
  match p.kind with
  | .student => StudentPass.STUDENT_RATE
  | .staff => StaffPass.STAFF_RATE

/-- Embedding of the base method ParkingPass.calculate_fee: rejects
negative hours, otherwise charges hours times the rate. -/
def ParkingPass.base_calculate_fee (fee_rate : ℚ) (hours_parked : ℚ) : Except PErr ℚ :=
  if hours_parked < 0 then
    .error (.valueError "Parked hours cannot be negative.")
  else
    .ok (hours_parked * fee_rate)

/-- StudentPass.calculate_fee delegates to the base method with the
student rate. -/
def StudentPass.calculate_fee (hours_parked : ℚ) : Except PErr ℚ :=
  ParkingPass.base_calculate_fee StudentPass.STUDENT_RATE hours_parked

/-- StaffPass.calculate_fee: rejects negative hours; the first hour is
free; beyond one hour only the exceeding time is charged. -/
def StaffPass.calculate_fee (hours_parked : ℚ) : Except PErr ℚ :=
  if hours_parked < 0 then
    .error (.valueError "Parked hours cannot be negative.")
  else if hours_parked ≤ 1 then
    .ok 0
  else
    .ok ((hours_parked - 1) * StaffPass.STAFF_RATE)

/-- Dynamic dispatch of calculate_fee on the class of the pass. -/
def ParkingPass.calculate_fee (p : ParkingPass) (hours_parked : ℚ) : Except PErr ℚ :=
  match p.kind with
  | .student => StudentPass.calculate_fee hours_parked
  | .staff => StaffPass.calculate_fee hours_parked

/-- ParkingLot of section 4: name, validated capacity, and the mapping
from parked plate to entry timestamp. -/
structure ParkingLot where
  name : String
  capacity : Int
  parked_vehicles : List (String × Nat)
deriving Repr, DecidableEq

/-- Embedding of ParkingLot._validate_capacity: capacity must be
positive. -/
def ParkingLot.validate_capacity (capacity : Int) : Except PErr Int :=
  if capacity ≤ 0 then
    .error (.valueError "Capacity must be a positive integer.")
  else
    .ok capacity

/-- Embedding of ParkingLot.__init__: validates the capacity and starts
with no parked vehicle. -/
def ParkingLot.make (name : String) (capacity : Int) : Except PErr ParkingLot :=
  match ParkingLot.validate_capacity capacity with
  | .error e => .error e
  | .ok c => .ok { name := name, capacity := c, parked_vehicles := [] }

/-- ParkingLot.is_full: occupied count at least the capacity. -/
def ParkingLot.is_full (lot : ParkingLot) : Bool :=
  (lot.parked_vehicles.length : Int) ≥ lot.capacity

/-- ParkingLot.is_parked: membership of the normalized plate. -/
def ParkingLot.is_parked (lot : ParkingLot) (license_plate : String) : Bool :=
  (lot.parked_vehicles.lookup (normalizePlate license_plate)).isSome

/-- ParkingLot.add_vehicle: full check first, then duplicate check, then
record the entry time under the normalized plate. -/
def ParkingLot.add_vehicle (lot : ParkingLot) (license_plate : String) (now : Nat) :
    Except PErr ParkingLot :=
  let plate := normalizePlate license_plate
  if lot.is_full then
    .error (.fullLotError ("ERROR: " ++ lot.name ++ " parking lot is full. Capacity reached."))
  else if lot.is_parked plate then
    .error (.parkingError ("ERROR: Vehicle with plate (" ++ plate ++ ") is already parked."))
  else
    .ok { lot with parked_vehicles := lot.parked_vehicles ++ [(plate, now)] }

/-- ParkingLot.remove_vehicle: rejects a plate that is not parked,
otherwise pops its binding and returns the recorded entry time. The
unreachable pop of a missing key is the KeyError of a Python dict. -/
def ParkingLot.remove_vehicle (lot : ParkingLot) (license_plate : String) :
    Except PErr (ParkingLot × Nat) :=
  let plate := normalizePlate license_plate
  if ! lot.is_parked plate then
    .error (.vehicleNotParkedError
      ("ERROR: Vehicle with plate (" ++ plate ++ ") not found among parked vehicles."))
  else
    match lot.parked_vehicles.lookup plate with
    | some entry_time =>
        .ok ({ lot with
                parked_vehicles := lot.parked_vehicles.eraseP (fun x => x.1 == plate) },
             entry_time)
    | none => .error (.genericError "KeyError")

/-- ParkingLot.get_parked_plates: the plates of the parked vehicles. -/
def ParkingLot.get_parked_plates (lot : ParkingLot) : List String :=
  lot.parked_vehicles.map Prod.fst

/-- The public operations of ParkingLot, for stating invariants over
arbitrary operation sequences. -/
inductive LotOp where
  | addVehicleOp (plate : String) (now : Nat)
  | removeVehicleOp (plate : String)
  | isFullOp
  | isParkedOp (plate : String)
  | getParkedPlatesOp
deriving Repr, DecidableEq

/-- Running one operation against the lot; a failed operation leaves the
lot unchanged (the exception aborts the method before any mutation, or
after none in the source), and the read-only queries do not change it. -/
def ParkingLot.applyOp (lot : ParkingLot) : LotOp → ParkingLot
  | .addVehicleOp p t =>
      match lot.add_vehicle p t with
      | .ok lot2 => lot2
      | .error _ => lot
  | .removeVehicleOp p =>
      match lot.remove_vehicle p with
      | .ok (lot2, _) => lot2
      | .error _ => lot
  | .isFullOp => lot
  | .isParkedOp _ => lot
  | .getParkedPlatesOp => lot

/-- Running a sequence of operations against the lot. -/
def ParkingLot.applyOps (lot : ParkingLot) (ops : List LotOp) : ParkingLot :=
  ops.foldl ParkingLot.applyOp lot

/-- ParkingSystem of section 5: the owned lot, the plate to Driver
mapping, and the plate to ParkingPass mapping. -/
structure ParkingSystem where
  parking_lot : ParkingLot
  registered_drivers : List (String × Driver)
  issued_passes : List (String × ParkingPass)
deriving Repr, DecidableEq

/-- Embedding of ParkingSystem.__init__: builds the lot (validating the
capacity) and starts with empty mappings. -/
def ParkingSystem.make (lot_name : String) (lot_capacity : Int) : Except PErr ParkingSystem :=
  match ParkingLot.make lot_name lot_capacity with
  | .error e => .error e
  | .ok lot => .ok { parking_lot := lot, registered_drivers := [], issued_passes := [] }

/-- ParkingSystem._get_driver_by_plate: the Driver of the plate, or a
parking error if the plate is not registered. -/
def ParkingSystem.get_driver_by_plate (sys : ParkingSystem) (plate : String) :
    Except PErr Driver :=
  let clean_plate := normalizePlate plate
  match sys.registered_drivers.lookup clean_plate with
  | none => .error (.parkingError
      ("ERROR: No driver or pass registered for plate (" ++ clean_plate
        ++ "). Registration is required first!"))
  | some d => .ok d

/-- ParkingSystem.register_driver_and_vehicle: rejects an already
registered plate with DuplicatePlateError, otherwise builds the Vehicle
and the Driver (each may fail validation) and records the driver. -/
def ParkingSystem.register_driver_and_vehicle (sys : ParkingSystem)
    (name : String) (driver_id : String) (plate : String) (v_type : String) :
    Except PErr ParkingSystem :=
  let plate1 := normalizePlate plate
  if (sys.registered_drivers.lookup plate1).isSome then
    .error (.duplicatePlateError
      ("ERROR: Plate (" ++ plate1 ++ ") is already registered in the system."))
  else
    match Vehicle.make plate1 v_type with
    | .error e => .error e
    | .ok vehicle =>
      match Driver.make name driver_id vehicle with
      | .error e => .error e
      | .ok driver =>
        .ok { sys with registered_drivers := sys.registered_drivers ++ [(plate1, driver)] }

/-- ParkingSystem.issue_pass: requires prior registration, rejects a
second pass for the plate, and accepts only the pass types student and
staff after lower-casing; the pass id is built from the plate and the
current time rendered as a string. -/
def ParkingSystem.issue_pass (sys : ParkingSystem) (plate : String) (pass_type : String)
    (now_str : String) : Except PErr ParkingSystem :=
  let plate1 := normalizePlate plate
  match sys.get_driver_by_plate plate1 with
  | .error e => .error e
  | .ok driver =>
    match sys.issued_passes.lookup plate1 with
    | some existing =>
      .error (.parkingError
        ("ERROR: A " ++ existing.class_name ++ " pass has already been issued for plate ("
          ++ plate1 ++ ")."))
    | none =>
      let pass_id := plate1 ++ "-" ++ now_str
      if toLowerStr pass_type = "student" then
        .ok { sys with issued_passes := sys.issued_passes
                ++ [(plate1, { pass_id := pass_id, driver := driver, kind := .student })] }
      else if toLowerStr pass_type = "staff" then
        .ok { sys with issued_passes := sys.issued_passes
                ++ [(plate1, { pass_id := pass_id, driver := driver, kind := .staff })] }
      else
        .error (.valueError "Invalid pass type. Must be student or staff.")

/-- ParkingSystem.park_vehicle: requires an issued pass, then delegates
to ParkingLot.add_vehicle; its try block catches any ParkingError and
reports it (second component) instead of letting it escape, so only a
non-ParkingError could propagate as an Except error. -/
def ParkingSystem.park_vehicle (sys : ParkingSystem) (plate : String) (now : Nat) :
    Except PErr (ParkingSystem × Option PErr) :=
  let plate1 := normalizePlate plate
  let inner : Except PErr ParkingLot :=
    if (sys.issued_passes.lookup plate1).isNone then
      .error (.parkingError
        ("ERROR: Vehicle with plate (" ++ plate1
          ++ ") does not have an active parking pass. An active pass is required for entry."))
    else
      sys.parking_lot.add_vehicle plate1 now
  match inner with
  | .ok lot2 => .ok ({ sys with parking_lot := lot2 }, none)
  | .error e =>
      if e.isParkingError then .ok (sys, some e)
      else .error e

/-- ParkingSystem.remove_vehicle_and_fee: removes the vehicle from the
lot, computes the parked hours from the entry and exit times (seconds
divided by 3600, the override replacing the recorded entry time when
given), retrieves the pass with dict.get, and calculates the fee. Every
exception is caught by one of its two except clauses, so the result is a
plain triple: the new state, the fee if one was computed, and the error
caught (if any). A missing pass makes dict.get return None and the fee
call fail with an AttributeError, modelled by the generic error. -/
def ParkingSystem.remove_vehicle_and_fee (sys : ParkingSystem) (plate : String)
    (now : Nat) (entry_time_override : Option Nat) :
    ParkingSystem × Option ℚ × Option PErr :=
  let plate1 := normalizePlate plate
  match sys.parking_lot.remove_vehicle plate1 with
  | .error e => (sys, none, some e)
  | .ok (lot2, entry_time0) =>
    let sys2 := { sys with parking_lot := lot2 }
    let exit_time := now
    let entry_time := match entry_time_override with
      | some t => t
      | none => entry_time0
    let hours_parked : ℚ := (((exit_time : Int) - (entry_time : Int) : Int) : ℚ) / 3600
    match sys.issued_passes.lookup plate1 with
    | none => (sys2, none,
        some (.genericError "AttributeError: NoneType object has no attribute calculate_fee"))
    | some parking_pass =>
      match parking_pass.calculate_fee hours_parked with
      | .error e => (sys2, none, some e)
      | .ok fee => (sys2, some fee, none)

/-- A vehicle type used by the concrete sample states below. -/
def sampleVehicle : Vehicle := { license_plate := "AA11", vehicle_type := "car" }

/-- A driver used by the concrete sample states below. -/
def sampleDriver : Driver :=
  { full_name := "Ada", driver_id := "D1", vehicle := sampleVehicle }

/-- A student pass for plate AA11 used by the concrete sample states. -/
def samplePass : ParkingPass :=
  { pass_id := "AA11-20240101000000", driver := sampleDriver, kind := .student }

/-- A lot of capacity 1 holding one vehicle: it is full. -/
def lotFullSample : ParkingLot :=
  { name := "L", capacity := 1, parked_vehicles := [("AA11", 5)] }

/-- A lot of capacity 2 holding one vehicle: it has room. -/
def lotOpenSample : ParkingLot :=
  { name := "L", capacity := 2, parked_vehicles := [("AA11", 5)] }

/-- A fresh system with an empty lot of capacity 10. -/
def sysEmptySample : ParkingSystem :=
  { parking_lot := { name := "L", capacity := 10, parked_vehicles := [] },
    registered_drivers := [], issued_passes := [] }

/-- A system where plate AA11 is registered but holds no pass. -/
def sysRegisteredSample : ParkingSystem :=
  { parking_lot := { name := "L", capacity := 10, parked_vehicles := [] },
    registered_drivers := [("AA11", sampleDriver)], issued_passes := [] }

/-- A system where plate AA11 is registered and holds a student pass. -/
def sysPassedSample : ParkingSystem :=
  { parking_lot := { name := "L", capacity := 10, parked_vehicles := [] },
    registered_drivers := [("AA11", sampleDriver)],
    issued_passes := [("AA11", samplePass)] }

/-- The sysPassedSample system after AA11 parked at time 0. -/
def sysParkedSample : ParkingSystem :=
  { parking_lot := { name := "L", capacity := 10, parked_vehicles := [("AA11", 0)] },
    registered_drivers := [("AA11", sampleDriver)],
    issued_passes := [("AA11", samplePass)] }

/-! ## Character-level facts about plate normalization -/

theorem char_toNat_ofNat_valid {n : Nat} (h : n.isValidChar) : (Char.ofNat n).toNat = n := by
  simp [Char.ofNat, h, Char.ofNatAux, Char.toNat, UInt32.toNat]

theorem char_toUpper_eq (c : Char) :
    c.toUpper = if c.toNat ≥ 97 ∧ c.toNat ≤ 122 then Char.ofNat (c.toNat - 32) else c := rfl

theorem char_toUpper_toNat (c : Char) :
    c.toUpper.toNat = if c.toNat ≥ 97 ∧ c.toNat ≤ 122 then c.toNat - 32 else c.toNat := by
  rw [char_toUpper_eq]
  by_cases h : c.toNat ≥ 97 ∧ c.toNat ≤ 122
  · rw [if_pos h, if_pos h]
    have hv : (c.toNat - 32).isValidChar := by
      constructor
      omega
    exact char_toNat_ofNat_valid hv
  · rw [if_neg h, if_neg h]

theorem toUpper_toUpper (c : Char) : c.toUpper.toUpper = c.toUpper := by
  by_cases h : c.toNat ≥ 97 ∧ c.toNat ≤ 122
  · have h1 : c.toUpper.toNat = c.toNat - 32 := by rw [char_toUpper_toNat, if_pos h]
    rw [char_toUpper_eq c.toUpper, if_neg (by omega)]
  · have h1 : c.toUpper = c := by rw [char_toUpper_eq, if_neg h]
    rw [h1, h1]

theorem toUpper_ne_space {c : Char} (h : c ≠ ' ') : c.toUpper ≠ ' ' := by
  intro he
  by_cases hc : c.toNat ≥ 97 ∧ c.toNat ≤ 122
  · have h1 : c.toUpper.toNat = c.toNat - 32 := by rw [char_toUpper_toNat, if_pos hc]
    rw [he] at h1
    have h2 : (' ' : Char).toNat = 32 := by decide
    omega
  · have h1 : c.toUpper = c := by rw [char_toUpper_eq, if_neg hc]
    rw [h1] at he
    exact h he

theorem normalizeList_idem (l : List Char) :
    ((((l.map Char.toUpper).filter (fun c => c ≠ ' ')).map Char.toUpper).filter (fun c => c ≠ ' '))
      = (l.map Char.toUpper).filter (fun c => c ≠ ' ') := by
  induction l with
  | nil => rfl
  | cons c l ih =>
    simp only [List.map_cons]
    by_cases h : c.toUpper = ' '
    · rw [List.filter_cons_of_neg (by simp [h]), ih]
    · rw [List.filter_cons_of_pos (by simp [h]), List.map_cons,
        List.filter_cons_of_pos (by simp [toUpper_ne_space h]), toUpper_toUpper, ih]

/-- Normalizing a plate twice is the same as normalizing it once; the
source normalizes at every layer, and this lemma relates the layers. -/
theorem normalizePlate_idem (s : String) :
    normalizePlate (normalizePlate s) = normalizePlate s := by
  unfold normalizePlate
  exact congrArg String.mk (normalizeList_idem s.data)

/-! ## Association-list lemmas used to reason about the dictionaries -/

theorem lookup_append_right_of_none {β : Type} (l : List (String × β)) (k : String) (v : β)
    (h : l.lookup k = none) : (l ++ [(k, v)]).lookup k = some v := by
  induction l with
  | nil => simp [List.lookup_cons]
  | cons a l ih =>
    obtain ⟨a1, a2⟩ := a
    rw [List.lookup_cons] at h
    rw [List.cons_append, List.lookup_cons]
    cases hk : (k == a1) with
    | true =>
      rw [hk] at h
      exact Option.noConfusion h
    | false =>
      rw [hk] at h
      exact ih h

theorem eraseP_append_of_none {β : Type} (l : List (String × β)) (k : String) (v : β)
    (h : l.lookup k = none) :
    (l ++ [(k, v)]).eraseP (fun x => x.1 == k) = l := by
  induction l with
  | nil => simp [List.eraseP]
  | cons a l ih =>
    obtain ⟨a1, a2⟩ := a
    rw [List.lookup_cons] at h
    rw [List.cons_append, List.eraseP_cons]
    cases hk : (k == a1) with
    | true =>
      rw [hk] at h
      exact Option.noConfusion h
    | false =>
      rw [hk] at h
      have ha : ((a1, a2).1 == k) = false := by
        simp only [beq_eq_false_iff_ne] at hk ⊢
        exact fun he => hk he.symm
      rw [ha]
      simp only [cond_false]
      rw [ih h]

theorem lookup_eq_none_of_notin {β : Type} (l : List (String × β)) (k : String)
    (h : k ∉ l.map Prod.fst) : l.lookup k = none := by
  induction l with
  | nil => rfl
  | cons a l ih =>
    obtain ⟨a1, a2⟩ := a
    simp only [List.map_cons, List.mem_cons] at h
    push_neg at h
    have hk : (k == a1) = false := beq_eq_false_iff_ne.mpr h.1
    rw [List.lookup_cons, hk]
    exact ih h.2

theorem lookup_eraseP_self_of_nodup {β : Type} (l : List (String × β)) (k : String)
    (h : (l.map Prod.fst).Nodup) :
    (l.eraseP (fun x => x.1 == k)).lookup k = none := by
  induction l with
  | nil => rfl
  | cons a l ih =>
    obtain ⟨a1, a2⟩ := a
    simp only [List.map_cons, List.nodup_cons] at h
    rw [List.eraseP_cons]
    cases hk : ((a1, a2).1 == k) with
    | true =>
      simp only [cond_true]
      simp only [beq_iff_eq] at hk
      exact lookup_eq_none_of_notin l k (hk ▸ h.1)
    | false =>
      simp only [cond_false]
      rw [List.lookup_cons]
      have hk2 : (k == a1) = false := by
        simp only [beq_eq_false_iff_ne] at hk ⊢
        exact fun he => hk he.symm
      rw [hk2]
      exact ih h.2

theorem lookup_eraseP_ne {β : Type} (l : List (String × β)) (k q : String) (hq : q ≠ k) :
    (l.eraseP (fun x => x.1 == k)).lookup q = l.lookup q := by
  induction l with
  | nil => rfl
  | cons a l ih =>
    obtain ⟨a1, a2⟩ := a
    rw [List.eraseP_cons]
    cases hk : ((a1, a2).1 == k) with
    | true =>
      simp only [cond_true]
      simp only [beq_iff_eq] at hk
      rw [List.lookup_cons]
      have hq2 : (q == a1) = false := by
        apply beq_eq_false_iff_ne.mpr
        intro he
        exact hq (by rw [he]; exact hk)
      rw [hq2]
    | false =>
      simp only [cond_false]
      rw [List.lookup_cons, List.lookup_cons]
      cases hqa : (q == a1) with
      | true => rfl
      | false => exact ih

/-! ## Small facts about the lot operations -/

/-- is_parked does not care whether its argument was already
normalized. -/
theorem is_parked_norm (lot : ParkingLot) (p : String) :
    lot.is_parked (normalizePlate p) = lot.is_parked p := by
  unfold ParkingLot.is_parked
  rw [normalizePlate_idem]

/-- A plate reported not parked has no binding in the lot. -/
theorem lookup_none_of_not_parked (lot : ParkingLot) (p : String)
    (h : lot.is_parked p = false) :
    lot.parked_vehicles.lookup (normalizePlate p) = none := by
  unfold ParkingLot.is_parked at h
  cases hl : lot.parked_vehicles.lookup (normalizePlate p) with
  | none => rfl
  | some v =>
    rw [hl] at h
    exact Bool.noConfusion h

/-! ## Claims C1 and C6: the fee functions -/

/-- Claim C1: for every hours value h greater than or equal to 0,
StudentPass.calculate_fee h returns h * 2.0 and StaffPass.calculate_fee h
returns max 0 (h - 1) * 3.0. -/
theorem C1_fee_formulas (h : ℚ) (hn : 0 ≤ h) :
    StudentPass.calculate_fee h = .ok (h * 2) ∧
    StaffPass.calculate_fee h = .ok (max 0 (h - 1) * 3) := by
  constructor
  · unfold StudentPass.calculate_fee ParkingPass.base_calculate_fee
    rw [if_neg (not_lt.mpr hn)]
    rfl
  · unfold StaffPass.calculate_fee
    rw [if_neg (not_lt.mpr hn)]
    by_cases h1 : h ≤ 1
    · rw [if_pos h1]
      have hm : max 0 (h - 1) = 0 := max_eq_left (by linarith)
      rw [hm, zero_mul]
    · rw [if_neg h1]
      have hm : max 0 (h - 1) = h - 1 := max_eq_right (by linarith)
      rw [hm]
      rfl

/-- Witness for C1 at h = 3. -/
theorem C1_fee_formulas_witness :
    (0 : ℚ) ≤ 3 ∧
      (StudentPass.calculate_fee 3 = .ok (3 * 2) ∧
        StaffPass.calculate_fee 3 = .ok (max 0 (3 - 1) * 3)) :=
  ⟨by decide, C1_fee_formulas 3 (by decide)⟩

/-- Claim C6: for every hours value h less than 0, both
StudentPass.calculate_fee and StaffPass.calculate_fee fail with a
validation (value) error and return no fee. -/
theorem C6_negative_hours (h : ℚ) (hn : h < 0) :
    StudentPass.calculate_fee h = .error (.valueError "Parked hours cannot be negative.") ∧
    StaffPass.calculate_fee h = .error (.valueError "Parked hours cannot be negative.") := by
  unfold StudentPass.calculate_fee ParkingPass.base_calculate_fee StaffPass.calculate_fee
  rw [if_pos hn, if_pos hn]
  exact ⟨rfl, rfl⟩

/-- Witness for C6 at h = -1. -/
theorem C6_negative_hours_witness :
    (-1 : ℚ) < 0 ∧
      (StudentPass.calculate_fee (-1) =
          .error (.valueError "Parked hours cannot be negative.") ∧
        StaffPass.calculate_fee (-1) =
          .error (.valueError "Parked hours cannot be negative.")) :=
  ⟨by decide, C6_negative_hours (-1) (by decide)⟩

/-! ## Claims C4 and C5: the lot operations -/

/-- Claim C4: add_vehicle fails with FullLotError whenever the occupied
count is at least the capacity; below capacity it fails with a
duplicate-park parking error if the plate is already parked; and
otherwise it records the current timestamp as the entry time of the
normalized plate. -/
theorem C4_add_vehicle (lot : ParkingLot) (plate : String) (now : Nat) :
    ((lot.parked_vehicles.length : Int) ≥ lot.capacity →
      ∃ m, lot.add_vehicle plate now = .error (.fullLotError m)) ∧
    ((lot.parked_vehicles.length : Int) < lot.capacity →
      lot.is_parked plate = true →
      ∃ m, lot.add_vehicle plate now = .error (.parkingError m)) ∧
    ((lot.parked_vehicles.length : Int) < lot.capacity →
      lot.is_parked plate = false →
      ∃ lot2, lot.add_vehicle plate now = .ok lot2 ∧
        lot2.parked_vehicles = lot.parked_vehicles ++ [(normalizePlate plate, now)] ∧
        lot2.parked_vehicles.lookup (normalizePlate plate) = some now) := by
  refine ⟨fun hfull => ?_, fun hlt hp => ?_, fun hlt hp => ?_⟩
  · have hf : lot.is_full = true := by
      unfold ParkingLot.is_full
      simp only [ge_iff_le, decide_eq_true_eq]
      omega
    refine ⟨"ERROR: " ++ lot.name ++ " parking lot is full. Capacity reached.", ?_⟩
    simp [ParkingLot.add_vehicle, hf]
  · have hf : lot.is_full = false := by
      unfold ParkingLot.is_full
      simp only [ge_iff_le, decide_eq_false_iff_not, not_le]
      omega
    have hp2 : lot.is_parked (normalizePlate plate) = true := by
      rw [is_parked_norm]
      exact hp
    refine ⟨"ERROR: Vehicle with plate (" ++ normalizePlate plate ++ ") is already parked.", ?_⟩
    simp [ParkingLot.add_vehicle, hf, hp2]
  · have hf : lot.is_full = false := by
      unfold ParkingLot.is_full
      simp only [ge_iff_le, decide_eq_false_iff_not, not_le]
      omega
    have hp2 : lot.is_parked (normalizePlate plate) = false := by
      rw [is_parked_norm]
      exact hp
    refine ⟨{ lot with
        parked_vehicles := lot.parked_vehicles ++ [(normalizePlate plate, now)] }, ?_, rfl, ?_⟩
    · simp [ParkingLot.add_vehicle, hf, hp2]
    · exact lookup_append_right_of_none _ _ _ (lookup_none_of_not_parked lot plate hp)

/-- Witness for C4 on a full lot, a duplicate plate, and a fresh park. -/
theorem C4_add_vehicle_witness :
    (∃ m, lotFullSample.add_vehicle "BB22" 7 = .error (.fullLotError m)) ∧
    (∃ m, lotOpenSample.add_vehicle "AA11" 7 = .error (.parkingError m)) ∧
    (∃ lot2, lotOpenSample.add_vehicle "BB22" 7 = .ok lot2 ∧
      lot2.parked_vehicles = lotOpenSample.parked_vehicles ++ [(normalizePlate "BB22", 7)] ∧
      lot2.parked_vehicles.lookup (normalizePlate "BB22") = some 7) :=
  ⟨(C4_add_vehicle lotFullSample "BB22" 7).1 (by decide),
   (C4_add_vehicle lotOpenSample "AA11" 7).2.1 (by decide) (by decide),
   (C4_add_vehicle lotOpenSample "BB22" 7).2.2 (by decide) (by decide)⟩

/-- Claim C5: remove_vehicle fails with VehicleNotParkedError for every
plate not currently in the lot, and otherwise removes exactly that plate
(leaving every other binding unchanged) and returns the entry timestamp
that was recorded for it. -/
theorem C5_remove_vehicle (lot : ParkingLot) (plate : String)
    (hnd : (lot.parked_vehicles.map Prod.fst).Nodup) :
    (lot.is_parked plate = false →
      ∃ m, lot.remove_vehicle plate = .error (.vehicleNotParkedError m)) ∧
    (∀ t, lot.parked_vehicles.lookup (normalizePlate plate) = some t →
      ∃ lot2, lot.remove_vehicle plate = .ok (lot2, t) ∧
        lot2.is_parked plate = false ∧
        ∀ q, q ≠ normalizePlate plate →
          lot2.parked_vehicles.lookup q = lot.parked_vehicles.lookup q) := by
  constructor
  · intro hp
    have hp2 : lot.is_parked (normalizePlate plate) = false := by
      rw [is_parked_norm]
      exact hp
    refine ⟨"ERROR: Vehicle with plate (" ++ normalizePlate plate
      ++ ") not found among parked vehicles.", ?_⟩
    simp [ParkingLot.remove_vehicle, hp2]
  · intro t ht
    have hp2 : lot.is_parked (normalizePlate plate) = true := by
      unfold ParkingLot.is_parked
      rw [normalizePlate_idem, ht]
      rfl
    refine ⟨{ lot with
        parked_vehicles := lot.parked_vehicles.eraseP
          (fun x => x.1 == normalizePlate plate) }, ?_, ?_, ?_⟩
    · simp [ParkingLot.remove_vehicle, hp2, ht]
    · show ((lot.parked_vehicles.eraseP
          (fun x => x.1 == normalizePlate plate)).lookup (normalizePlate plate)).isSome = false
      rw [lookup_eraseP_self_of_nodup _ _ hnd]
      rfl
    · intro q hq
      exact lookup_eraseP_ne _ _ _ hq

/-- Witness for C5 on an absent plate and on the parked plate AA11. -/
theorem C5_remove_vehicle_witness :
    (∃ m, lotOpenSample.remove_vehicle "BB22" = .error (.vehicleNotParkedError m)) ∧
    (∃ lot2, lotOpenSample.remove_vehicle "AA11" = .ok (lot2, 5) ∧
      lot2.is_parked "AA11" = false ∧
      ∀ q, q ≠ normalizePlate "AA11" →
        lot2.parked_vehicles.lookup q = lotOpenSample.parked_vehicles.lookup q) :=
  ⟨(C5_remove_vehicle lotOpenSample "BB22" (by decide)).1 (by decide),
   (C5_remove_vehicle lotOpenSample "AA11" (by decide)).2 5 (by decide)⟩

/-! ## Claim C10: capacity validation at construction -/

/-- Claim C10: for every capacity at most 0, constructing a ParkingLot
(and therefore a ParkingSystem) fails with a validation error, and every
successfully constructed lot or system has strictly positive capacity. -/
theorem C10_capacity_validation (name : String) (cap : Int) :
    (cap ≤ 0 →
      ParkingLot.make name cap =
          .error (.valueError "Capacity must be a positive integer.") ∧
        ParkingSystem.make name cap =
          .error (.valueError "Capacity must be a positive integer.")) ∧
    (∀ lot, ParkingLot.make name cap = .ok lot → 0 < lot.capacity) ∧
    (∀ sys, ParkingSystem.make name cap = .ok sys → 0 < sys.parking_lot.capacity) := by
  refine ⟨fun hle => ?_, fun lot hlot => ?_, fun sys hsys => ?_⟩
  · constructor
    · simp [ParkingLot.make, ParkingLot.validate_capacity, if_pos hle]
    · simp [ParkingSystem.make, ParkingLot.make, ParkingLot.validate_capacity, if_pos hle]
  · unfold ParkingLot.make ParkingLot.validate_capacity at hlot
    by_cases hle : cap ≤ 0
    · rw [if_pos hle] at hlot
      exact Except.noConfusion hlot
    · rw [if_neg hle] at hlot
      simp only [Except.ok.injEq] at hlot
      subst hlot
      show (0 : Int) < cap
      omega
  · unfold ParkingSystem.make ParkingLot.make ParkingLot.validate_capacity at hsys
    by_cases hle : cap ≤ 0
    · rw [if_pos hle] at hsys
      exact Except.noConfusion hsys
    · rw [if_neg hle] at hsys
      simp only [Except.ok.injEq] at hsys
      subst hsys
      show (0 : Int) < cap
      omega

/-- Witness for C10 at capacity 0 (rejected) and capacity 1 (accepted). -/
theorem C10_capacity_validation_witness :
    ((0 : Int) ≤ 0 →
      ParkingLot.make "L" 0 =
          .error (.valueError "Capacity must be a positive integer.") ∧
        ParkingSystem.make "L" 0 =
          .error (.valueError "Capacity must be a positive integer.")) ∧
    (0 : Int) < ({ name := "L", capacity := 1, parked_vehicles := [] } : ParkingLot).capacity :=
  ⟨fun h => (C10_capacity_validation "L" 0).1 h,
   (C10_capacity_validation "L" 1).2.1
     { name := "L", capacity := 1, parked_vehicles := [] } rfl⟩

/-! ## Claim C7: the capacity invariant -/

/-- When add_vehicle succeeds the lot was not full, the plate was not
already parked, and the result is the old lot extended by the new
entry. -/
theorem add_vehicle_ok_shape (lot lot2 : ParkingLot) (p : String) (t : Nat)
    (h : lot.add_vehicle p t = .ok lot2) :
    lot.is_full = false ∧
    lot.is_parked (normalizePlate p) = false ∧
    lot2 = { lot with parked_vehicles := lot.parked_vehicles ++ [(normalizePlate p, t)] } := by
  simp only [ParkingLot.add_vehicle] at h
  split at h
  next => exact Except.noConfusion h
  next hfull =>
    split at h
    next => exact Except.noConfusion h
    next hparked =>
      have hf : lot.is_full = false := by
        cases hfb : lot.is_full
        · rfl
        · exact absurd hfb hfull
      have hp : lot.is_parked (normalizePlate p) = false := by
        cases hpb : lot.is_parked (normalizePlate p)
        · rfl
        · exact absurd hpb hparked
      injection h with h2
      exact ⟨hf, hp, h2.symm⟩

/-- When remove_vehicle succeeds the result is the old lot with the
plate's binding erased. -/
theorem remove_vehicle_ok_shape (lot lot2 : ParkingLot) (p : String) (t : Nat)
    (h : lot.remove_vehicle p = .ok (lot2, t)) :
    lot2 = { lot with parked_vehicles :=
      lot.parked_vehicles.eraseP (fun x => x.1 == normalizePlate p) } := by
  simp only [ParkingLot.remove_vehicle] at h
  split at h
  next => exact Except.noConfusion h
  next =>
    split at h
    next t0 heq =>
      injection h with h2
      injection h2 with ha hb
      exact ha.symm
    next => exact Except.noConfusion h

/-- One operation preserves the bound of the occupied count by the
capacity, and never changes the capacity. -/
theorem applyOp_preserves (lot : ParkingLot) (op : LotOp)
    (h : (lot.parked_vehicles.length : Int) ≤ lot.capacity) :
    ((lot.applyOp op).parked_vehicles.length : Int) ≤ (lot.applyOp op).capacity ∧
    (lot.applyOp op).capacity = lot.capacity := by
  cases op with
  | addVehicleOp p t =>
    simp only [ParkingLot.applyOp]
    split
    next lot2 heq =>
      obtain ⟨hf, -, h2⟩ := add_vehicle_ok_shape lot lot2 p t heq
      subst h2
      have hlt : (lot.parked_vehicles.length : Int) < lot.capacity := by
        unfold ParkingLot.is_full at hf
        simp only [ge_iff_le, decide_eq_false_iff_not, not_le] at hf
        exact hf
      constructor
      · simp only [List.length_append, List.length_cons, List.length_nil]
        push_cast
        omega
      · rfl
    next e heq => exact ⟨h, rfl⟩
  | removeVehicleOp p =>
    simp only [ParkingLot.applyOp]
    split
    next lot2 t heq =>
      have h2 := remove_vehicle_ok_shape lot lot2 p t heq
      subst h2
      have hle := List.length_eraseP_le lot.parked_vehicles
        (p := fun x => x.1 == normalizePlate p)
      constructor
      · simp only []
        omega
      · rfl
    next e heq => exact ⟨h, rfl⟩
  | isFullOp => exact ⟨h, rfl⟩
  | isParkedOp p => exact ⟨h, rfl⟩
  | getParkedPlatesOp => exact ⟨h, rfl⟩

/-- The bound is preserved by every operation sequence. -/
theorem applyOps_invariant (ops : List LotOp) (lot : ParkingLot)
    (h : (lot.parked_vehicles.length : Int) ≤ lot.capacity) :
    ((lot.applyOps ops).parked_vehicles.length : Int) ≤ (lot.applyOps ops).capacity := by
  induction ops generalizing lot with
  | nil => exact h
  | cons op ops ih =>
    simp only [ParkingLot.applyOps, List.foldl_cons] at *
    exact ih _ (applyOp_preserves lot op h).1

/-- Claim C7: for every lot built by the constructor and every sequence
of lot operations, the number of parked vehicles never exceeds the
capacity of the lot. -/
theorem C7_capacity_invariant (name : String) (cap : Int) (lot0 : ParkingLot)
    (hmk : ParkingLot.make name cap = .ok lot0) (ops : List LotOp) :
    ((lot0.applyOps ops).parked_vehicles.length : Int) ≤ (lot0.applyOps ops).capacity := by
  apply applyOps_invariant
  unfold ParkingLot.make ParkingLot.validate_capacity at hmk
  by_cases hle : cap ≤ 0
  · rw [if_pos hle] at hmk
    exact Except.noConfusion hmk
  · rw [if_neg hle] at hmk
    simp only [Except.ok.injEq] at hmk
    subst hmk
    show ((List.length [] : Int)) ≤ cap
    simp only [List.length_nil, Int.Nat.cast_ofNat_Int]
    omega

/-- Witness for C7: a capacity-1 lot with two attempted parks, one
removal, and a query. -/
theorem C7_capacity_invariant_witness :
    ((ParkingLot.applyOps { name := "L", capacity := 1, parked_vehicles := [] }
        [LotOp.addVehicleOp "AA11" 0, LotOp.addVehicleOp "BB22" 1,
         LotOp.removeVehicleOp "AA11", LotOp.isFullOp]).parked_vehicles.length : Int) ≤
      (ParkingLot.applyOps { name := "L", capacity := 1, parked_vehicles := [] }
        [LotOp.addVehicleOp "AA11" 0, LotOp.addVehicleOp "BB22" 1,
         LotOp.removeVehicleOp "AA11", LotOp.isFullOp]).capacity :=
  C7_capacity_invariant "L" 1 _ rfl
    [LotOp.addVehicleOp "AA11" 0, LotOp.addVehicleOp "BB22" 1,
     LotOp.removeVehicleOp "AA11", LotOp.isFullOp]

/-! ## Claim C9: duplicate registration -/

/-- An option whose isSome is false is none. -/
theorem eq_none_of_isSome_false {α : Type} {o : Option α} (h : ¬ o.isSome = true) :
    o = none :=
  Option.not_isSome_iff_eq_none.mp h

/-- Claim C9: registering the same plate a second time fails with
DuplicatePlateError, and the driver and vehicle recorded by the first
registration are left unchanged (still found under the plate with the
original name, id, normalized plate and vehicle type). -/
theorem C9_duplicate_registration (sys sys1 : ParkingSystem)
    (name driver_id plate v_type name2 driver_id2 v_type2 : String)
    (h1 : sys.register_driver_and_vehicle name driver_id plate v_type = .ok sys1) :
    (∃ m, sys1.register_driver_and_vehicle name2 driver_id2 plate v_type2 =
      .error (.duplicatePlateError m)) ∧
    sys1.registered_drivers.lookup (normalizePlate plate) =
      some { full_name := name, driver_id := driver_id,
             vehicle := { license_plate := normalizePlate plate,
                          vehicle_type := v_type } } := by
  simp only [ParkingSystem.register_driver_and_vehicle, Vehicle.make, Driver.make] at h1
  split at h1
  next => exact Except.noConfusion h1
  next hd =>
    split at h1
    next e heq => exact Except.noConfusion h1
    next vehicle heq =>
      split at h1
      next e heq2 => exact Except.noConfusion h1
      next driver heq2 =>
        have hv : vehicle = { license_plate := normalizePlate (normalizePlate plate),
                              vehicle_type := v_type } := by
          by_cases hp0 : normalizePlate plate = ""
          · rw [if_pos hp0] at heq
            exact Except.noConfusion heq
          · rw [if_neg hp0] at heq
            injection heq with h
            exact h.symm
        have hdrv : driver = { full_name := name, driver_id := driver_id,
                               vehicle := vehicle } := by
          by_cases hid0 : driver_id = ""
          · rw [if_pos hid0] at heq2
            exact Except.noConfusion heq2
          · rw [if_neg hid0] at heq2
            injection heq2 with h
            exact h.symm
        injection h1 with h1e
        subst h1e
        subst hdrv
        subst hv
        have hnone : sys.registered_drivers.lookup (normalizePlate plate) = none :=
          eq_none_of_isSome_false hd
        have hlk := lookup_append_right_of_none sys.registered_drivers (normalizePlate plate)
          { full_name := name, driver_id := driver_id,
            vehicle := { license_plate := normalizePlate (normalizePlate plate),
                         vehicle_type := v_type } } hnone
        constructor
        · refine ⟨"ERROR: Plate (" ++ normalizePlate plate
            ++ ") is already registered in the system.", ?_⟩
          simp [ParkingSystem.register_driver_and_vehicle, hlk]
        · rw [normalizePlate_idem] at hlk
          simp only [normalizePlate_idem]
          exact hlk

/-- Witness for C9: registering AA11 twice on a fresh system. -/
theorem C9_duplicate_registration_witness :
    (∃ m, sysRegisteredSample.register_driver_and_vehicle "Bob" "D2" "AA11" "car" =
      .error (.duplicatePlateError m)) ∧
    sysRegisteredSample.registered_drivers.lookup (normalizePlate "AA11") =
      some { full_name := "Ada", driver_id := "D1",
             vehicle := { license_plate := normalizePlate "AA11",
                          vehicle_type := "car" } } :=
  C9_duplicate_registration sysEmptySample sysRegisteredSample
    "Ada" "D1" "AA11" "car" "Bob" "D2" "car" rfl

/-! ## Claim C3: pass issuance -/

/-- Claim C3: issue_pass fails (with a parking error) if the plate is
not registered; fails if a pass has already been issued for the plate;
fails with an invalid-argument (value) error for every type other than
student or staff after lower-casing; and otherwise records a new pass of
the requested kind for the plate. -/
theorem C3_issue_pass (sys : ParkingSystem) (plate pass_type now_str : String) :
    ((sys.registered_drivers.lookup (normalizePlate plate)).isNone = true →
      ∃ m, sys.issue_pass plate pass_type now_str = .error (.parkingError m)) ∧
    (∀ d, sys.registered_drivers.lookup (normalizePlate plate) = some d →
      ∀ q, sys.issued_passes.lookup (normalizePlate plate) = some q →
      ∃ m, sys.issue_pass plate pass_type now_str = .error (.parkingError m)) ∧
    (∀ d, sys.registered_drivers.lookup (normalizePlate plate) = some d →
      sys.issued_passes.lookup (normalizePlate plate) = none →
      toLowerStr pass_type ≠ "student" → toLowerStr pass_type ≠ "staff" →
      sys.issue_pass plate pass_type now_str =
        .error (.valueError "Invalid pass type. Must be student or staff.")) ∧
    (∀ d, sys.registered_drivers.lookup (normalizePlate plate) = some d →
      sys.issued_passes.lookup (normalizePlate plate) = none →
      (toLowerStr pass_type = "student" →
        sys.issue_pass plate pass_type now_str =
          .ok { sys with issued_passes := sys.issued_passes
            ++ [(normalizePlate plate,
                 { pass_id := normalizePlate plate ++ "-" ++ now_str,
                   driver := d, kind := .student })] }) ∧
      (toLowerStr pass_type = "staff" →
        sys.issue_pass plate pass_type now_str =
          .ok { sys with issued_passes := sys.issued_passes
            ++ [(normalizePlate plate,
                 { pass_id := normalizePlate plate ++ "-" ++ now_str,
                   driver := d, kind := .staff })] })) := by
  refine ⟨fun hreg => ?_, fun d hreg q hpassed => ?_, fun d hreg hnopass hst hsf => ?_,
    fun d hreg hnopass => ⟨fun hst => ?_, fun hsf => ?_⟩⟩
  · refine ⟨"ERROR: No driver or pass registered for plate (" ++ normalizePlate plate
      ++ "). Registration is required first!", ?_⟩
    have hr : sys.registered_drivers.lookup (normalizePlate plate) = none :=
      Option.isNone_iff_eq_none.mp hreg
    simp [ParkingSystem.issue_pass, ParkingSystem.get_driver_by_plate,
      normalizePlate_idem, hr]
  · refine ⟨"ERROR: A " ++ q.class_name ++ " pass has already been issued for plate ("
      ++ normalizePlate plate ++ ").", ?_⟩
    simp [ParkingSystem.issue_pass, ParkingSystem.get_driver_by_plate,
      normalizePlate_idem, hreg, hpassed]
  · simp [ParkingSystem.issue_pass, ParkingSystem.get_driver_by_plate,
      normalizePlate_idem, hreg, hnopass, hst, hsf]
  · simp [ParkingSystem.issue_pass, ParkingSystem.get_driver_by_plate,
      normalizePlate_idem, hreg, hnopass, hst]
  · simp [ParkingSystem.issue_pass, ParkingSystem.get_driver_by_plate,
      normalizePlate_idem, hreg, hnopass, hsf]

/-- Witness for C3: an unregistered plate, an already-passed plate, an
invalid type, and the two valid types (case-insensitively). -/
theorem C3_issue_pass_witness :
    (∃ m, sysEmptySample.issue_pass "AA11" "student" "t0" = .error (.parkingError m)) ∧
    (∃ m, sysPassedSample.issue_pass "AA11" "student" "t0" = .error (.parkingError m)) ∧
    (sysRegisteredSample.issue_pass "AA11" "gold" "t0" =
      .error (.valueError "Invalid pass type. Must be student or staff.")) ∧
    (sysRegisteredSample.issue_pass "AA11" "Student" "t0" =
      .ok { sysRegisteredSample with issued_passes := sysRegisteredSample.issued_passes
        ++ [(normalizePlate "AA11",
             { pass_id := normalizePlate "AA11" ++ "-" ++ "t0",
               driver := sampleDriver, kind := .student })] }) ∧
    (sysRegisteredSample.issue_pass "AA11" "STAFF" "t0" =
      .ok { sysRegisteredSample with issued_passes := sysRegisteredSample.issued_passes
        ++ [(normalizePlate "AA11",
             { pass_id := normalizePlate "AA11" ++ "-" ++ "t0",
               driver := sampleDriver, kind := .staff })] }) :=
  ⟨(C3_issue_pass sysEmptySample "AA11" "student" "t0").1 rfl,
   (C3_issue_pass sysPassedSample "AA11" "student" "t0").2.1 sampleDriver rfl samplePass rfl,
   (C3_issue_pass sysRegisteredSample "AA11" "gold" "t0").2.2.1 sampleDriver rfl rfl
     (by decide) (by decide),
   ((C3_issue_pass sysRegisteredSample "AA11" "Student" "t0").2.2.2 sampleDriver rfl rfl).1 rfl,
   ((C3_issue_pass sysRegisteredSample "AA11" "STAFF" "t0").2.2.2 sampleDriver rfl rfl).2 rfl⟩

/-! ## Claim C2: where the park error is caught -/

/-- Counterexample to C2 as stated: on a system where plate ABC123 has
no issued pass, park_vehicle does raise the domain (parking) error
internally, but the method itself catches it and returns normally with
the error only reported; the result is ok, not an escaping error, so the
error never propagates out of the ParkingSystem method to the menu-loop
boundary. -/
theorem C2_park_error_counterexample :
    sysEmptySample.park_vehicle "ABC123" 0 =
      .ok (sysEmptySample, some (.parkingError
        ("ERROR: Vehicle with plate (ABC123) does not have an active parking pass."
          ++ " An active pass is required for entry."))) := by
  rfl

/-- Claim C2 amended: for every plate that has no issued pass,
park_vehicle raises a domain (parking) error internally, but the
try/except inside park_vehicle catches it and the method returns the
unchanged system together with the reported ParkingError; nothing
propagates to the menu-loop boundary. -/
theorem C2_park_no_pass_caught (sys : ParkingSystem) (plate : String) (now : Nat)
    (h : sys.issued_passes.lookup (normalizePlate plate) = none) :
    ∃ e, sys.park_vehicle plate now = .ok (sys, some e) ∧ e.isParkingError = true := by
  refine ⟨.parkingError ("ERROR: Vehicle with plate (" ++ normalizePlate plate
    ++ ") does not have an active parking pass. An active pass is required for entry."),
    ?_, rfl⟩
  simp [ParkingSystem.park_vehicle, h, PErr.isParkingError]

/-- Witness for the amended C2 on a fresh system. -/
theorem C2_park_no_pass_caught_witness :
    sysEmptySample.issued_passes.lookup (normalizePlate "ABC123") = none ∧
    ∃ e, sysEmptySample.park_vehicle "ABC123" 0 = .ok (sysEmptySample, some e) ∧
      e.isParkingError = true :=
  ⟨rfl, C2_park_no_pass_caught sysEmptySample "ABC123" 0 rfl⟩

/-! ## Claim C8: the park and remove round trip -/

/-- For non-negative hours, every pass kind computes a non-negative
fee. -/
theorem calculate_fee_nonneg (q : ParkingPass) (h : ℚ) (hh : 0 ≤ h) :
    ∃ fee, q.calculate_fee h = .ok fee ∧ 0 ≤ fee := by
  unfold ParkingPass.calculate_fee
  cases hk : q.kind with
  | student =>
    refine ⟨h * StudentPass.STUDENT_RATE, ?_, ?_⟩
    · show StudentPass.calculate_fee h = .ok (h * StudentPass.STUDENT_RATE)
      unfold StudentPass.calculate_fee ParkingPass.base_calculate_fee
      rw [if_neg (not_lt.mpr hh)]
    · exact mul_nonneg hh (by norm_num [StudentPass.STUDENT_RATE])
  | staff =>
    by_cases h1 : h ≤ 1
    · refine ⟨0, ?_, le_refl 0⟩
      show StaffPass.calculate_fee h = .ok 0
      unfold StaffPass.calculate_fee
      rw [if_neg (not_lt.mpr hh), if_pos h1]
    · refine ⟨(h - 1) * StaffPass.STAFF_RATE, ?_, ?_⟩
      · show StaffPass.calculate_fee h = .ok ((h - 1) * StaffPass.STAFF_RATE)
        unfold StaffPass.calculate_fee
        rw [if_neg (not_lt.mpr hh), if_neg h1]
      · exact mul_nonneg (by linarith) (by norm_num [StaffPass.STAFF_RATE])

/-- Claim C8: for every plate with an issued pass, successfully parking
it at time t1 and then removing it at a later time t2 returns the plate
to the not-parked state (is_parked is false) and the computed fee is
non-negative. -/
theorem C8_round_trip (sys sys1 : ParkingSystem) (plate : String) (t1 t2 : Nat)
    (ht : t1 ≤ t2)
    (hpass : (sys.issued_passes.lookup (normalizePlate plate)).isSome = true)
    (hpark : sys.park_vehicle plate t1 = .ok (sys1, none)) :
    ∃ sys2 fee, sys1.remove_vehicle_and_fee plate t2 none = (sys2, some fee, none) ∧
      sys2.parking_lot.is_parked plate = false ∧ 0 ≤ fee := by
  obtain ⟨q, hq⟩ := Option.isSome_iff_exists.mp hpass
  simp only [ParkingSystem.park_vehicle, hq, Option.isNone_some, Bool.false_eq_true,
    if_false] at hpark
  cases hadd : sys.parking_lot.add_vehicle (normalizePlate plate) t1 with
  | error e =>
    rw [hadd] at hpark
    by_cases hpe : e.isParkingError = true
    · simp [hpe] at hpark
    · simp [hpe] at hpark
  | ok lot2 =>
    rw [hadd] at hpark
    simp only [Except.ok.injEq, Prod.mk.injEq, and_true] at hpark
    subst hpark
    obtain ⟨hfull, hnp, hlot2⟩ := add_vehicle_ok_shape _ _ _ _ hadd
    rw [normalizePlate_idem] at hnp hlot2
    subst hlot2
    rw [is_parked_norm] at hnp
    have hnone : sys.parking_lot.parked_vehicles.lookup (normalizePlate plate) = none :=
      lookup_none_of_not_parked _ _ hnp
    have hlk : (sys.parking_lot.parked_vehicles
        ++ [(normalizePlate plate, t1)]).lookup (normalizePlate plate) = some t1 :=
      lookup_append_right_of_none _ _ _ hnone
    have her : (sys.parking_lot.parked_vehicles
        ++ [(normalizePlate plate, t1)]).eraseP (fun x => x.1 == normalizePlate plate) =
        sys.parking_lot.parked_vehicles :=
      eraseP_append_of_none _ _ _ hnone
    have hrem : ({ sys.parking_lot with parked_vehicles :=
        sys.parking_lot.parked_vehicles
          ++ [(normalizePlate plate, t1)] } : ParkingLot).remove_vehicle
          (normalizePlate plate) = .ok (sys.parking_lot, t1) := by
      simp only [ParkingLot.remove_vehicle, ParkingLot.is_parked, normalizePlate_idem,
        hlk, Option.isSome_some, Bool.not_true, Bool.false_eq_true, if_false, her]
    have hh0 : (0 : ℚ) ≤ (((t2 : Int) - (t1 : Int) : Int) : ℚ) / 3600 := by
      apply div_nonneg
      · have h1 : (0 : Int) ≤ (t2 : Int) - (t1 : Int) := by omega
        exact_mod_cast h1
      · norm_num
    obtain ⟨fee, hfeeq, hfeenn⟩ :=
      calculate_fee_nonneg q ((((t2 : Int) - (t1 : Int) : Int) : ℚ) / 3600) hh0
    refine ⟨sys, fee, ?_, hnp, hfeenn⟩
    simp only [ParkingSystem.remove_vehicle_and_fee, hrem, hq, hfeeq]

/-- Witness for C8: AA11 parks at time 0 and leaves at time 7200. -/
theorem C8_round_trip_witness :
    (0 : Nat) ≤ 7200 ∧
    (sysPassedSample.issued_passes.lookup (normalizePlate "AA11")).isSome = true ∧
    ∃ sys2 fee, sysParkedSample.remove_vehicle_and_fee "AA11" 7200 none =
        (sys2, some fee, none) ∧
      sys2.parking_lot.is_parked "AA11" = false ∧ 0 ≤ fee :=
  ⟨by decide, rfl,
   C8_round_trip sysPassedSample sysParkedSample "AA11" 0 7200 (by decide) rfl rfl⟩
